import Mathlib

/-!
Shallow embedding of the coursition-effect experiment's request pipeline:
the Jobs and Media access-layer stores, the orchestration usecases, the
boundary handlers, the HTTP endpoint declarations and the test doubles,
together with the error taxonomy that flows between them.

Effect values are modelled by their observable outcome on one invocation:
success (`ok`), a typed recoverable failure (`fail`), or a defect (`die`).
`E.withSpan` and `E.tapError` only emit tracing/logging and do not change
the outcome, so they are embedded as outcome-preserving combinators.
-/

namespace Coursition

/-- Job lifecycle status, from the literals `'pending' | 'in-progress' |
'completed'` used in `src/src/stores/jobs/jobs.store.ts`. -/
inductive JobStatus where
  | pending
  | inProgress
  | completed
deriving DecidableEq, Repr

/-- `JobResponse` shape: `{id, name, status}` as constructed by
`JobResponse.make` in the jobs store. -/
structure JobResponse where
  id : Int
  name : String
  status : JobStatus
deriving DecidableEq, Repr

/-- `JobsResponse` shape: `{jobs: [...]}`. -/
structure JobsResponse where
  jobs : List JobResponse
deriving DecidableEq, Repr

/-- `JobResultResponse` shape: `{id, result}` as constructed by
`JobResultResponse.make` in the jobs store. -/
structure JobResultResponse where
  id : Int
  result : String
deriving DecidableEq, Repr

/-- Closed sum of the internal domain errors declared in
`src/src/domain/jobs/jobs.errors.ts` and
`src/src/domain/media/media.errors.ts` (the `Data.TaggedError` classes). -/
inductive DomainError where
  | jobProcessingError (jobId : Int) (reason : String)
  | jobNotFoundError (id : Int)
  | jobResultNotFoundError (jobId : Int)
  | mediaEmptyError (reason : String)
  | mediaNotFoundError (id : String)
  | mediaParsingError (source : String) (error : String)
deriving DecidableEq, Repr

/-- Closed sum of the wire (API boundary) errors declared in the same two
files (the `Schema.TaggedError` classes). -/
inductive WireError where
  | jobNotFound
  | jobResultNotFound
  | mediaEmpty
  | mediaNotFound
deriving DecidableEq, Repr

/-- A defect (unrecoverable failure): either a plain message passed to
`E.die`, or a domain error escalated by `E.orDie`. -/
inductive Defect where
  | message (s : String)
  | domain (e : DomainError)
deriving DecidableEq, Repr

/-- Observable outcome of running an effect once: success, typed failure,
or defect. -/
inductive Outcome (α : Type) (ε : Type) where
  | ok (a : α)
  | fail (e : ε)
  | die (d : Defect)
deriving DecidableEq, Repr

namespace Outcome

/-- Sequencing of effects (`yield*` inside `E.gen`). -/
def bind : Outcome α ε → (α → Outcome β ε) → Outcome β ε
  | .ok a, f => f a
  | .fail e, _ => .fail e
  | .die d, _ => .die d

/-- `E.withSpan` annotates tracing and leaves the outcome unchanged. -/
def withSpan (_label : String) (o : Outcome α ε) : Outcome α ε := o

/-- `E.tapError(E.logError)` logs and leaves the outcome unchanged. -/
def tapError (o : Outcome α ε) : Outcome α ε := o

/-- `E.orDie`: a typed domain failure is escalated to a defect; after this
point the typed error channel can no longer fire. -/
def orDie : Outcome α DomainError → Outcome α DomainError
  | .ok a => .ok a
  | .fail e => .die (.domain e)
  | .die d => .die d

/-- Whether the outcome is a success. -/
def isOk : Outcome α ε → Bool
  | .ok _ => true
  | _ => false

/-- Whether the outcome is a typed recoverable failure. -/
def isFail : Outcome α ε → Bool
  | .fail _ => true
  | _ => false

/-- Whether the outcome is a defect. -/
def isDie : Outcome α ε → Bool
  | .die _ => true
  | _ => false

end Outcome

/-- The fixed job list returned by the default `getAllJobs`. -/
def defaultJobsList : List JobResponse :=
  [⟨1, "Parse Video 1", .completed⟩,
   ⟨2, "Parse Audio 2", .inProgress⟩,
   ⟨3, "Parse Document 3", .pending⟩]

/-- Default `JobsStore.getAllJobs` (jobs.store.ts lines 18-31): succeeds
with the fixed three-job list. -/
def getAllJobs : Outcome JobsResponse DomainError :=
  (Outcome.ok ⟨defaultJobsList⟩).withSpan "JobsStore.getAllJobs"

/-- Default `JobsStore.getJobById` (jobs.store.ts lines 33-49): fails with
`JobNotFoundError` for id 999, otherwise succeeds with an in-progress job
named `Job ${id}`. -/
def getJobById (id : Int) : Outcome JobResponse DomainError :=
  (if id = 999 then Outcome.fail (.jobNotFoundError id)
   else Outcome.ok ⟨id, "Job " ++ toString id, .inProgress⟩).withSpan
    "JobsStore.getJobById"

/-- `getJobResult` body (jobs.store.ts lines 51-69), parametric in the
`getJobById` operation it resolves from the `JobsStore` context: resolve
the job, then fail with `JobResultNotFoundError` unless the status is
`completed`, else succeed with `Result for job ${jobId}`. -/
def getJobResultWith (getById : Int → Outcome JobResponse DomainError)
    (jobId : Int) : Outcome JobResultResponse DomainError :=
  ((getById jobId).bind fun job =>
    if job.status ≠ .completed then
      Outcome.fail (.jobResultNotFoundError jobId)
    else
      Outcome.ok ⟨jobId, "Result for job " ++ toString jobId⟩).withSpan
    "JobsStore.getJobResult"

/-- Default `JobsStore.getJobResult`: under `JobsStore.Default` the
`yield* JobsStore` context resolution yields the default service itself,
so the resolved `getJobById` is the default one. -/
def getJobResult (jobId : Int) : Outcome JobResultResponse DomainError :=
  getJobResultWith getJobById jobId

/-- Interface of a `JobsStore` service instance (the record of operations
returned by the service effect, or supplied by a test layer). -/
structure JobsStoreService where
  getAllJobs : Unit → Outcome JobsResponse DomainError
  getJobById : Int → Outcome JobResponse DomainError
  getJobResult : Int → Outcome JobResultResponse DomainError

/-- The default `JobsStore` service (`JobsStore.Default`). -/
def JobsStore.defaultService : JobsStoreService :=
  ⟨fun _ => getAllJobs, getJobById, getJobResult⟩

/-- A partial mock passed to `JobsStore.makeTestService`: each field is
`none` when the caller does not override the method. -/
structure JobsStorePartial where
  getAllJobs : Option (Unit → Outcome JobsResponse DomainError) := none
  getJobById : Option (Int → Outcome JobResponse DomainError) := none
  getJobResult : Option (Int → Outcome JobResultResponse DomainError) := none

/-- `JobsStore.makeTestService` (jobs.store.ts lines 73-82): every method
defaults to `E.die('Not implemented')`, then the spread of the partial
mock replaces exactly the overridden methods. -/
def JobsStore.makeTestService (m : JobsStorePartial) : JobsStoreService where
  getAllJobs := m.getAllJobs.getD fun _ => .die (.message "Not implemented")
  getJobById := m.getJobById.getD fun _ => .die (.message "Not implemented")
  getJobResult := m.getJobResult.getD fun _ => .die (.message "Not implemented")

/-- Subtitle segment shape `{start, end, text}` from the media schema. -/
structure SubtitleSegment where
  start : Int
  «end» : Int
  text : String
deriving DecidableEq, Repr

/-- `MediaResponse` shape: `{json: SubtitleJson}`. -/
structure MediaResponse where
  json : List SubtitleSegment
deriving DecidableEq, Repr

/-- `UnifiedMediaRequest`: a union of a url-based request and a file-based
(multipart) request, each extended with a mandatory language tag. -/
inductive UnifiedMediaRequest where
  | url (url : String) (language : String)
  | file (file : String) (language : String)
deriving DecidableEq, Repr

/-- The request's language tag. -/
def UnifiedMediaRequest.language : UnifiedMediaRequest → String
  | .url _ l => l
  | .file _ l => l

/-- The `'url' in request ? request.url : 'file'` source label used when a
`MediaParsingError` is constructed. -/
def UnifiedMediaRequest.sourceLabel : UnifiedMediaRequest → String
  | .url u _ => u
  | .file _ _ => "file"

/-- Interface of a `MediaStore` service instance. -/
structure MediaStoreService where
  parseMedia : UnifiedMediaRequest → Outcome MediaResponse DomainError

/-- The fixed segment list returned by the default (E.Service)
`MediaStore.parseMedia` mock. -/
def defaultSegments : List SubtitleSegment :=
  [⟨0, 5000, "Hello world"⟩,
   ⟨5000, 10000, "This is a test"⟩,
   ⟨10000, 15000, "Subtitle parsing complete"⟩]

/-- The default `MediaStore` service (the `E.Service` implementation):
`parseMedia` sleeps, then succeeds with the fixed three-segment response;
the surrounding `try`/`catch` guards code that cannot throw, so the
`MediaParsingError` branch is unreachable in this mock. -/
def MediaStore.defaultService : MediaStoreService :=
  ⟨fun _ => (Outcome.ok ⟨defaultSegments⟩).withSpan "MediaStore.parseMedia"⟩

/-- `MediaStore.Deepgram` (src/src/stores/media/media.store.ts lines
18-27): `parseMedia` annotates the current span and succeeds with the
empty segment list. -/
def MediaStore.Deepgram : MediaStoreService :=
  ⟨fun _ => (Outcome.ok ⟨[]⟩).withSpan "parse-media"⟩

/-- A partial mock passed to `MediaStore.makeTestService` or to
`makeTestLayer(MediaStore)`. -/
structure MediaStorePartial where
  parseMedia : Option (UnifiedMediaRequest → Outcome MediaResponse DomainError) := none

/-- `MediaStore.makeTestService`: `parseMedia` defaults to
`E.die('Not implemented')` unless overridden by the spread mock. -/
def MediaStore.makeTestService (m : MediaStorePartial) : MediaStoreService where
  parseMedia := m.parseMedia.getD fun _ => .die (.message "Not implemented")

/-- The defect produced by `makeUnimplemented` in `src/src/test-utils.ts`:
`E.die` of the message `id: Unimplemented method "prop"`. -/
def makeUnimplemented (id prop : String) : Defect :=
  .message (id ++ ": Unimplemented method \"" ++ prop ++ "\"")

/-- `makeTestLayer(MediaStore)(impl)` (test-utils.ts lines 27-46): the
proxy serves an overridden property from `impl` and otherwise returns the
`makeUnimplemented` dying method, keyed by the tag key `MediaStore`. -/
def makeTestLayerMediaStore (impl : MediaStorePartial) : MediaStoreService where
  parseMedia :=
    impl.parseMedia.getD fun _ => .die (makeUnimplemented "MediaStore" "parseMedia")

/-- `getJobsUsecase` (orchestration): resolve the store, call
`getAllJobs`, log errors, and apply `E.orDie` (fatal policy). -/
def getJobsUsecase (s : JobsStoreService) : Outcome JobsResponse DomainError :=
  (((s.getAllJobs ()).tapError).orDie).withSpan "getJobsUsecase"

/-- `getJobByIdUsecase` (orchestration): call `getJobById`, log errors and
let `JobNotFoundError` bubble up (propagate policy). -/
def getJobByIdUsecase (s : JobsStoreService) (id : Int) :
    Outcome JobResponse DomainError :=
  ((s.getJobById id).tapError).withSpan "getJobByIdUsecase"

/-- `getJobResultUsecase` (orchestration): call `getJobResult`, log errors
and let the domain errors bubble up (propagate policy). -/
def getJobResultUsecase (s : JobsStoreService) (jobId : Int) :
    Outcome JobResultResponse DomainError :=
  ((s.getJobResult jobId).tapError).withSpan "getJobResultUsecase"

/-- `parseMediaUsecase` (orchestration): call `parseMedia`, log errors,
then `E.orDie` — every typed failure, `MediaParsingError` included, is
escalated to a defect here. -/
def parseMediaUsecase (s : MediaStoreService) (req : UnifiedMediaRequest) :
    Outcome MediaResponse DomainError :=
  (((s.parseMedia req).tapError).orDie).withSpan "parseMediaUsecase"

/-- Error channel of a boundary handler: either a wire error produced by a
registered translation, or a domain error no translation caught. -/
inductive HandlerError where
  | wire (w : WireError)
  | uncaught (e : DomainError)
deriving DecidableEq, Repr

/-- `E.catchTags` with a tag-indexed translation table: failures whose tag
is in the table become the mapped wire error; other failures stay in the
error channel untranslated. -/
def Outcome.catchTagsWith (table : DomainError → Option WireError) :
    Outcome α DomainError → Outcome α HandlerError
  | .ok a => .ok a
  | .die d => .die d
  | .fail e =>
    match table e with
    | some w => .fail (.wire w)
    | none => .fail (.uncaught e)

/-- `E.catchAll (() => wire w)`: every typed failure, whatever its tag,
becomes the one wire error `w`. Defects are not caught. -/
def Outcome.catchAllTo (w : WireError) :
    Outcome α DomainError → Outcome α HandlerError
  | .ok a => .ok a
  | .die d => .die d
  | .fail _ => .fail (.wire w)

/-- Translation table of `getJobByIdHandler`:
`catchTags { JobNotFoundError: () => new JobNotFound() }`. -/
def getJobByIdHandlerTable : DomainError → Option WireError
  | .jobNotFoundError _ => some .jobNotFound
  | _ => none

/-- Translation table of `getJobResultHandler`: `catchTags
{ JobNotFoundError: JobNotFound, JobResultNotFoundError: JobResultNotFound }`. -/
def getJobResultHandlerTable : DomainError → Option WireError
  | .jobNotFoundError _ => some .jobNotFound
  | .jobResultNotFoundError _ => some .jobResultNotFound
  | _ => none

/-- Translation table of the `parseMediaHandler` variant that uses
`catchTags { MediaParsingError: () => new MediaEmpty() }`. -/
def parseMediaHandlerTable : DomainError → Option WireError
  | .mediaParsingError _ _ => some .mediaEmpty
  | _ => none

/-- `getJobByIdHandler` (boundary): run the usecase, then translate. -/
def getJobByIdHandler (s : JobsStoreService) (id : Int) :
    Outcome JobResponse HandlerError :=
  (((getJobByIdUsecase s id).catchTagsWith getJobByIdHandlerTable).tapError).withSpan
    "getJobByIdHandler"

/-- `getJobResultHandler` (boundary): run the usecase, then translate. -/
def getJobResultHandler (s : JobsStoreService) (jobId : Int) :
    Outcome JobResultResponse HandlerError :=
  (((getJobResultUsecase s jobId).catchTagsWith getJobResultHandlerTable).tapError).withSpan
    "getJobResultHandler"

/-- The `parseMediaHandler` variant that translates with
`catchTags { MediaParsingError: () => new MediaEmpty() }`. -/
def parseMediaHandlerTagged (s : MediaStoreService) (req : UnifiedMediaRequest) :
    Outcome MediaResponse HandlerError :=
  (((parseMediaUsecase s req).catchTagsWith parseMediaHandlerTable).tapError).withSpan
    "parseMediaHandler"

/-- The `parseMediaHandler` variant (src/unnamed/part_004 lines 9-22) that
translates with `catchAll (() => new MediaEmpty())`. -/
def parseMediaHandlerCaught (s : MediaStoreService) (req : UnifiedMediaRequest) :
    Outcome MediaResponse HandlerError :=
  (((parseMediaUsecase s req).catchAllTo .mediaEmpty).tapError).withSpan
    "parseMediaHandler"

/-- The tag of a domain error (its `_tag` discriminant). -/
inductive DomainTag where
  | jobProcessingErrorTag
  | jobNotFoundErrorTag
  | jobResultNotFoundErrorTag
  | mediaEmptyErrorTag
  | mediaNotFoundErrorTag
  | mediaParsingErrorTag
deriving DecidableEq, Repr

/-- All declared domain error tags. -/
def domainTags : List DomainTag :=
  [.jobProcessingErrorTag, .jobNotFoundErrorTag, .jobResultNotFoundErrorTag,
   .mediaEmptyErrorTag, .mediaNotFoundErrorTag, .mediaParsingErrorTag]

/-- Static description of one boundary handler's error translation: the
explicit tag-to-wire pairs listed in its `E.catchTags` object, and the
wire error of its `E.catchAll` clause when it uses one. -/
structure BoundaryHandlerSpec where
  name : String
  taggedMappings : List (DomainTag × WireError)
  catchAllTo : Option WireError
deriving DecidableEq, Repr

/-- `getJobByIdHandler`: `catchTags { JobNotFoundError: JobNotFound }`. -/
def getJobByIdHandlerSpec : BoundaryHandlerSpec :=
  ⟨"getJobByIdHandler", [(.jobNotFoundErrorTag, .jobNotFound)], none⟩

/-- `getJobResultHandler`: `catchTags { JobNotFoundError: JobNotFound,
JobResultNotFoundError: JobResultNotFound }`. -/
def getJobResultHandlerSpec : BoundaryHandlerSpec :=
  ⟨"getJobResultHandler",
   [(.jobNotFoundErrorTag, .jobNotFound),
    (.jobResultNotFoundErrorTag, .jobResultNotFound)], none⟩

/-- The `parseMediaHandler` variant with
`catchTags { MediaParsingError: MediaEmpty }` (src/unnamed/part_003). -/
def parseMediaHandlerTaggedSpec : BoundaryHandlerSpec :=
  ⟨"parseMediaHandler", [(.mediaParsingErrorTag, .mediaEmpty)], none⟩

/-- The `parseMediaHandler` variant with `catchAll (() => new MediaEmpty())`
(src/unnamed/part_004 lines 9-22). -/
def parseMediaHandlerCaughtSpec : BoundaryHandlerSpec :=
  ⟨"parseMediaHandler", [], some .mediaEmpty⟩

/-- The boundary handlers of the media group, as found in the source. -/
def boundaryHandlers : List BoundaryHandlerSpec :=
  [getJobByIdHandlerSpec, getJobResultHandlerSpec,
   parseMediaHandlerTaggedSpec, parseMediaHandlerCaughtSpec]

/-- The wire errors explicitly registered for a domain tag across all of
the boundary handlers' `catchTags` tables. -/
def registeredWires (t : DomainTag) : List WireError :=
  ((boundaryHandlers.map fun h =>
      (h.taggedMappings.filter fun p => p.1 = t).map Prod.snd).flatten).dedup

/-- The claim of a total, explicit, catch-all-free domain-to-wire mapping:
every declared domain tag has exactly one registered wire error, and no
boundary handler has a `catchAll` clause. -/
def totalExplicitMappingClaim : Prop :=
  (∀ t ∈ domainTags, (registeredWires t).length = 1) ∧
    ∀ h ∈ boundaryHandlers, h.catchAllTo = none

instance : Decidable totalExplicitMappingClaim := by
  unfold totalExplicitMappingClaim
  infer_instance

/-- Static description of one HTTP endpoint declaration: its method, its
path, and the wire errors it registers with their statuses. -/
structure EndpointSpec where
  method : String
  path : String
  errors : List (WireError × Nat)
deriving DecidableEq, Repr

/-- `src/src/api.ts`: the `parseMedia` endpoint registers no error. -/
def apiTsParseMedia : EndpointSpec := ⟨"POST", "/media/parse", []⟩

/-- `src/src/api.ts`: the `getJobs` endpoint registers no error. -/
def apiTsJobs : EndpointSpec := ⟨"GET", "/media/jobs", []⟩

/-- `src/src/api.ts` lines 12-14: the `getJob` endpoint registers
`MediaNotFound` at 404. -/
def apiTsJob : EndpointSpec := ⟨"GET", "/media/job/:id", [(.mediaNotFound, 404)]⟩

/-- `src/src/api.ts` lines 15-18: the `getJobResult` endpoint registers
`JobResultNotFound` at 404 and `MediaEmpty` at 422. -/
def apiTsJobResult : EndpointSpec :=
  ⟨"GET", "/media/job/:id/result", [(.jobResultNotFound, 404), (.mediaEmpty, 422)]⟩

/-- The duplicate api declaration in src/unnamed/part_011 lines 121-124:
`parseMedia` registers `MediaEmpty` at 422. -/
def apiAltParseMedia : EndpointSpec := ⟨"POST", "/media/parse", [(.mediaEmpty, 422)]⟩

/-- src/unnamed/part_011 lines 126-128: `getJob` registers `JobNotFound`
at 404. -/
def apiAltJob : EndpointSpec := ⟨"GET", "/media/job/:id", [(.jobNotFound, 404)]⟩

/-- src/unnamed/part_011 lines 129-132: `getJobResult` registers
`JobResultNotFound` at 404 and `JobNotFound` at 404. -/
def apiAltJobResult : EndpointSpec :=
  ⟨"GET", "/media/job/:id/result", [(.jobResultNotFound, 404), (.jobNotFound, 404)]⟩

/-- A subtitle segment is well-formed when its start offset is
non-negative and its end offset is strictly greater (spec §3). -/
def segmentWellFormed (s : SubtitleSegment) : Bool :=
  decide (0 ≤ s.start) && decide (s.start < s.«end»)

/-- A segment list is ordered by `start` ascending. -/
def startAscending : List SubtitleSegment → Bool
  | [] => true
  | [_] => true
  | a :: b :: t => decide (a.start ≤ b.start) && startAscending (b :: t)

/-- A parse result is well-formed when every segment is well-formed and
the sequence is ordered by `start` ascending. -/
def responseWellFormed (r : MediaResponse) : Bool :=
  r.json.all segmentWellFormed && startAscending r.json

/-- A `JobsStore` whose `getAllJobs` fails with a domain error, used to
exercise the fatal policy of the listing usecase. -/
def failingJobsStore : JobsStoreService :=
  { JobsStore.defaultService with
    getAllJobs := fun _ => .fail (.jobProcessingError 1 "backend down") }

/-- A `MediaStore` whose `parseMedia` fails with the `MediaParsingError`
the store constructs for a failed parse, used to exercise the parse
pipeline's failure path. -/
def failingMediaStore : MediaStoreService :=
  ⟨fun req => .fail (.mediaParsingError req.sourceLabel "parsing engine crashed")⟩

/-- The reference-based parse request of the spec scenario:
url `https://x/video.mp4`, language `en`. -/
def referenceParseRequest : UnifiedMediaRequest := .url "https://x/video.mp4" "en"

/-- C1: under the default `JobsStore`, `getJobResult i` succeeds iff
`getJobById i` succeeds with a job whose status is `completed`; a missing
job propagates `JobNotFoundError` unchanged, an uncompleted job yields
`JobResultNotFoundError`, and the two error values are distinct. -/
theorem getJobResult_succeeds_iff_completed (i : Int) :
    ((getJobResult i).isOk = true ↔
      ∃ job, getJobById i = .ok job ∧ job.status = .completed) ∧
    (getJobById i = .fail (.jobNotFoundError i) →
      getJobResult i = .fail (.jobNotFoundError i)) ∧
    (∀ job, getJobById i = .ok job → job.status ≠ .completed →
      getJobResult i = .fail (.jobResultNotFoundError i)) ∧
    DomainError.jobNotFoundError i ≠ DomainError.jobResultNotFoundError i := by
  by_cases h : i = 999 <;>
    simp [getJobResult, getJobResultWith, getJobById, Outcome.withSpan,
      Outcome.bind, Outcome.isOk, h]

/-- Witness for C1 at the concrete ids 999 (missing job) and 1
(existing, in-progress job). -/
theorem getJobResult_succeeds_iff_completed_witness :
    getJobResult 999 = .fail (.jobNotFoundError 999) ∧
    getJobResult 1 = .fail (.jobResultNotFoundError 1) :=
  ⟨(getJobResult_succeeds_iff_completed 999).2.1 (by decide),
   (getJobResult_succeeds_iff_completed 1).2.2.1 ⟨1, "Job 1", .inProgress⟩
     (by decide) (by decide)⟩

/-- C2: for the non-existent id 999 both lookups fail with
`JobNotFoundError`; for any id whose job exists with status pending or
in-progress, `getJobResult` fails with `JobResultNotFoundError`; and the
two error constructors are never equal. -/
theorem job_errors_not_conflated (i : Int) :
    (i = 999 →
      getJobById i = .fail (.jobNotFoundError i) ∧
      getJobResult i = .fail (.jobNotFoundError i)) ∧
    (∀ job, getJobById i = .ok job →
      job.status = .pending ∨ job.status = .inProgress →
      getJobResult i = .fail (.jobResultNotFoundError i)) ∧
    ∀ a b : Int,
      DomainError.jobNotFoundError a ≠ DomainError.jobResultNotFoundError b := by
  by_cases h : i = 999 <;>
    simp [getJobResult, getJobResultWith, getJobById, Outcome.withSpan,
      Outcome.bind, h]

/-- Witness for C2 at the concrete ids 999 and 2. -/
theorem job_errors_not_conflated_witness :
    (getJobById 999 = .fail (.jobNotFoundError 999) ∧
      getJobResult 999 = .fail (.jobNotFoundError 999)) ∧
    getJobResult 2 = .fail (.jobResultNotFoundError 2) :=
  ⟨(job_errors_not_conflated 999).1 rfl,
   (job_errors_not_conflated 2).2.1 ⟨2, "Job 2", .inProgress⟩ (by decide)
     (Or.inr rfl)⟩

/-- C7: `getJobResult` is exactly the composition of the resolved
`getJobById` with the single completion check: the default operation is
definitionally `getJobResultWith getJobById`; a failure or defect of the
resolved lookup propagates unchanged; after a successful resolution the
outcome is decided solely by the `status = completed` check; and the
outcome depends on the resolved lookup only through its value at the one
queried id (a single authoritative lookup, not keyed off a literal id). -/
theorem getJobResult_composition
    (g : Int → Outcome JobResponse DomainError) (jobId : Int) :
    getJobResult jobId = getJobResultWith getJobById jobId ∧
    (∀ e, g jobId = .fail e → getJobResultWith g jobId = .fail e) ∧
    (∀ d, g jobId = .die d → getJobResultWith g jobId = .die d) ∧
    (∀ job, g jobId = .ok job →
      getJobResultWith g jobId =
        if job.status = .completed then
          .ok ⟨jobId, "Result for job " ++ toString jobId⟩
        else .fail (.jobResultNotFoundError jobId)) ∧
    ∀ g', g jobId = g' jobId →
      getJobResultWith g jobId = getJobResultWith g' jobId := by
  refine ⟨rfl, ?_, ?_, ?_, ?_⟩
  · intro e h
    simp [getJobResultWith, Outcome.withSpan, Outcome.bind, h]
  · intro d h
    simp [getJobResultWith, Outcome.withSpan, Outcome.bind, h]
  · intro job h
    by_cases hs : job.status = .completed <;>
      simp [getJobResultWith, Outcome.withSpan, Outcome.bind, h, hs]
  · intro g' h
    simp [getJobResultWith, Outcome.withSpan, h]

/-- Witness for C7 at the default `getJobById` with ids 2 and 999. -/
theorem getJobResult_composition_witness :
    getJobResultWith getJobById 2 = .fail (.jobResultNotFoundError 2) ∧
    getJobResultWith getJobById 999 = .fail (.jobNotFoundError 999) := by
  constructor
  · have h := (getJobResult_composition getJobById 2).2.2.2.1
      ⟨2, "Job 2", .inProgress⟩ (by decide)
    simpa using h
  · exact (getJobResult_composition getJobById 999).2.1 _ (by decide)

/-- C9: under the default `JobsStore` no job result is ever retrievable:
`getJobResult` never succeeds, failing with `JobNotFoundError` at id 999
and with `JobResultNotFoundError` at every other id, because `getJobById`
returns an in-progress job for every id other than 999. -/
theorem default_store_no_result_retrievable (i : Int) :
    (getJobResult i).isOk = false ∧
    (i = 999 →
      getJobById i = .fail (.jobNotFoundError i) ∧
      getJobResult i = .fail (.jobNotFoundError i)) ∧
    (i ≠ 999 →
      getJobById i = .ok ⟨i, "Job " ++ toString i, .inProgress⟩ ∧
      getJobResult i = .fail (.jobResultNotFoundError i)) := by
  by_cases h : i = 999 <;>
    simp [getJobResult, getJobResultWith, getJobById, Outcome.withSpan,
      Outcome.bind, Outcome.isOk, h]

/-- Witness for C9 at the concrete ids 999 and 1. -/
theorem default_store_no_result_retrievable_witness :
    getJobResult 999 = .fail (.jobNotFoundError 999) ∧
    (getJobById 1 = .ok ⟨1, "Job 1", .inProgress⟩ ∧
      getJobResult 1 = .fail (.jobResultNotFoundError 1)) := by
  refine ⟨((default_store_no_result_retrievable 999).2.1 rfl).2, ?_⟩
  have h := (default_store_no_result_retrievable 1).2.2 (by decide)
  simpa using h

/-- C3: for every `JobsStore` implementation, `getJobsUsecase` never fails
with a typed recoverable error — a domain error raised by `getAllJobs`
surfaces as a defect carrying that error, and a success passes through. -/
theorem getJobsUsecase_error_channel_empty (s : JobsStoreService) :
    (getJobsUsecase s).isFail = false ∧
    (∀ e, s.getAllJobs () = .fail e → getJobsUsecase s = .die (.domain e)) ∧
    ∀ r, s.getAllJobs () = .ok r → getJobsUsecase s = .ok r := by
  refine ⟨?_, ?_, ?_⟩
  · cases h : s.getAllJobs () <;>
      simp [getJobsUsecase, Outcome.withSpan, Outcome.tapError, Outcome.orDie,
        Outcome.isFail, h]
  · intro e h
    simp [getJobsUsecase, Outcome.withSpan, Outcome.tapError, Outcome.orDie, h]
  · intro r h
    simp [getJobsUsecase, Outcome.withSpan, Outcome.tapError, Outcome.orDie, h]

/-- Witness for C3 at a store whose `getAllJobs` fails with
`JobProcessingError` and at the default store. -/
theorem getJobsUsecase_error_channel_empty_witness :
    getJobsUsecase failingJobsStore =
      .die (.domain (.jobProcessingError 1 "backend down")) ∧
    getJobsUsecase JobsStore.defaultService = .ok ⟨defaultJobsList⟩ :=
  ⟨(getJobsUsecase_error_channel_empty failingJobsStore).2.1 _ rfl,
   (getJobsUsecase_error_channel_empty JobsStore.defaultService).2.2 _ rfl⟩

/-- The outcome is the given defect: it is a die, not a success and not a
typed failure. -/
def Outcome.diesWith (o : Outcome α ε) (d : Defect) : Prop :=
  o = .die d ∧ o.isOk = false ∧ o.isFail = false

/-- C10: in every test double built by `JobsStore.makeTestService`,
`MediaStore.makeTestService` or `makeTestLayer`, a method the caller does
not override terminates with a defect when invoked — it never succeeds
and never fails with a typed domain error. -/
theorem test_doubles_unimplemented_die
    (mj : JobsStorePartial) (mm : MediaStorePartial)
    (i : Int) (req : UnifiedMediaRequest) :
    (mj.getAllJobs = none →
      ((JobsStore.makeTestService mj).getAllJobs ()).diesWith
        (.message "Not implemented")) ∧
    (mj.getJobById = none →
      ((JobsStore.makeTestService mj).getJobById i).diesWith
        (.message "Not implemented")) ∧
    (mj.getJobResult = none →
      ((JobsStore.makeTestService mj).getJobResult i).diesWith
        (.message "Not implemented")) ∧
    (mm.parseMedia = none →
      ((MediaStore.makeTestService mm).parseMedia req).diesWith
        (.message "Not implemented")) ∧
    (mm.parseMedia = none →
      ((makeTestLayerMediaStore mm).parseMedia req).diesWith
        (makeUnimplemented "MediaStore" "parseMedia")) := by
  refine ⟨?_, ?_, ?_, ?_, ?_⟩ <;> intro h <;>
    simp [JobsStore.makeTestService, MediaStore.makeTestService,
      makeTestLayerMediaStore, h, Outcome.diesWith, Outcome.isOk,
      Outcome.isFail]

/-- Witness for C10: the fully-unimplemented doubles invoked at id 5 and
at the reference parse request. -/
theorem test_doubles_unimplemented_die_witness :
    ((JobsStore.makeTestService {}).getAllJobs ()).diesWith
      (.message "Not implemented") ∧
    ((JobsStore.makeTestService {}).getJobById 5).diesWith
      (.message "Not implemented") ∧
    ((JobsStore.makeTestService {}).getJobResult 5).diesWith
      (.message "Not implemented") ∧
    ((MediaStore.makeTestService {}).parseMedia referenceParseRequest).diesWith
      (.message "Not implemented") ∧
    ((makeTestLayerMediaStore {}).parseMedia referenceParseRequest).diesWith
      (makeUnimplemented "MediaStore" "parseMedia") := by
  have h := test_doubles_unimplemented_die {} {} 5 referenceParseRequest
  exact ⟨h.1 rfl, h.2.1 rfl, h.2.2.1 rfl, h.2.2.2.1 rfl, h.2.2.2.2 rfl⟩

/-- C5: the POST /media/parse pipeline never surfaces a typed failure at
all: `parseMediaUsecase` applies `orDie`, so a `MediaParsingError` raised
by the store reaches the boundary as a defect carrying the error, and
both `parseMediaHandler` variants leave it untranslated — the `MediaEmpty`
translation is unreachable for every `MediaStore` implementation. -/
theorem parse_error_dies_before_handler
    (s : MediaStoreService) (req : UnifiedMediaRequest) :
    (∀ e, s.parseMedia req = .fail e →
      parseMediaUsecase s req = .die (.domain e) ∧
      parseMediaHandlerTagged s req = .die (.domain e) ∧
      parseMediaHandlerCaught s req = .die (.domain e)) ∧
    (parseMediaUsecase s req).isFail = false ∧
    (parseMediaHandlerTagged s req).isFail = false ∧
    (parseMediaHandlerCaught s req).isFail = false := by
  refine ⟨?_, ?_⟩
  · intro e h
    simp [parseMediaUsecase, parseMediaHandlerTagged, parseMediaHandlerCaught,
      Outcome.withSpan, Outcome.tapError, Outcome.orDie, Outcome.catchTagsWith,
      Outcome.catchAllTo, h]
  · cases h : s.parseMedia req <;>
      simp [parseMediaUsecase, parseMediaHandlerTagged, parseMediaHandlerCaught,
        Outcome.withSpan, Outcome.tapError, Outcome.orDie,
        Outcome.catchTagsWith, Outcome.catchAllTo, Outcome.isFail, h]

/-- Witness for C5: a store failing with `MediaParsingError` on the
reference request makes the whole pipeline die with that error. -/
theorem parse_error_dies_before_handler_witness :
    parseMediaHandlerTagged failingMediaStore referenceParseRequest =
      .die (.domain (.mediaParsingError "https://x/video.mp4"
        "parsing engine crashed")) ∧
    parseMediaHandlerCaught failingMediaStore referenceParseRequest =
      .die (.domain (.mediaParsingError "https://x/video.mp4"
        "parsing engine crashed")) ∧
    (parseMediaHandlerTagged failingMediaStore referenceParseRequest).isFail =
      false := by
  have h := parse_error_dies_before_handler failingMediaStore referenceParseRequest
  exact ⟨(h.1 _ rfl).2.1, (h.1 _ rfl).2.2, h.2.2.1⟩

/-- C8 counterexample: `MediaStore.Deepgram.parseMedia` applied to the
reference-based request of the spec scenario succeeds with the empty
segment sequence, so this implementation refutes the non-empty half of
the claim. -/
theorem deepgram_reference_parse_is_empty :
    MediaStore.Deepgram.parseMedia referenceParseRequest = .ok ⟨[]⟩ ∧
    ¬ ∃ r, MediaStore.Deepgram.parseMedia referenceParseRequest = .ok r ∧
      r.json ≠ [] := by
  refine ⟨rfl, ?_⟩
  rintro ⟨r, hr, hne⟩
  have h0 : MediaStore.Deepgram.parseMedia referenceParseRequest =
      .ok ⟨[]⟩ := rfl
  rw [h0] at hr
  injection hr with h1
  exact hne (h1 ▸ rfl)

/-- C8 amended: every parse result of either `MediaStore` implementation
is a well-formed, start-ascending segment sequence; for every request the
default (E.Service) implementation succeeds with a non-empty sequence,
while the Deepgram implementation succeeds with the empty sequence. -/
theorem parse_results_wellformed (req : UnifiedMediaRequest) :
    (∀ r, MediaStore.defaultService.parseMedia req = .ok r →
      responseWellFormed r = true ∧ r.json ≠ []) ∧
    (∀ r, MediaStore.Deepgram.parseMedia req = .ok r →
      responseWellFormed r = true) ∧
    (MediaStore.defaultService.parseMedia req).isOk = true ∧
    (MediaStore.Deepgram.parseMedia req).isOk = true := by
  refine ⟨?_, ?_, rfl, rfl⟩
  · intro r h
    have h0 : MediaStore.defaultService.parseMedia req =
        .ok ⟨defaultSegments⟩ := rfl
    rw [h0] at h
    injection h with h1
    subst h1
    exact ⟨by decide, by decide⟩
  · intro r h
    have h0 : MediaStore.Deepgram.parseMedia req = .ok ⟨[]⟩ := rfl
    rw [h0] at h
    injection h with h1
    subst h1
    decide

/-- Witness for C8 amended at the reference request. -/
theorem parse_results_wellformed_witness :
    (responseWellFormed ⟨defaultSegments⟩ = true ∧
      (MediaResponse.mk defaultSegments).json ≠ []) ∧
    responseWellFormed ⟨[]⟩ = true := by
  have h := parse_results_wellformed referenceParseRequest
  exact ⟨h.1 ⟨defaultSegments⟩ rfl, h.2.1 ⟨[]⟩ rfl⟩

/-- C4 counterexample: the domain-to-wire translation found at the
boundary handlers is neither total nor catch-all-free — three domain tags
have no registered mapping anywhere, and the part_004 variant of
`parseMediaHandler` translates with a catch-all to `MediaEmpty`. -/
theorem domain_wire_mapping_not_total :
    ¬ totalExplicitMappingClaim ∧
    registeredWires .jobProcessingErrorTag = [] ∧
    registeredWires .mediaEmptyErrorTag = [] ∧
    registeredWires .mediaNotFoundErrorTag = [] ∧
    parseMediaHandlerCaughtSpec.catchAllTo = some .mediaEmpty ∧
    parseMediaHandlerCaughtSpec ∈ boundaryHandlers := by
  decide

/-- C4 amended: the three domain errors that are translated each have
exactly one wire error, consistently across handlers, via explicit
per-tag mappings; the other three domain errors have no registered
mapping at any handler, and the part_004 `parseMediaHandler` variant
applies a catch-all translation. -/
theorem domain_wire_mapping_partial_explicit :
    registeredWires .jobNotFoundErrorTag = [.jobNotFound] ∧
    registeredWires .jobResultNotFoundErrorTag = [.jobResultNotFound] ∧
    registeredWires .mediaParsingErrorTag = [.mediaEmpty] ∧
    registeredWires .jobProcessingErrorTag = [] ∧
    registeredWires .mediaEmptyErrorTag = [] ∧
    registeredWires .mediaNotFoundErrorTag = [] ∧
    getJobByIdHandlerSpec.catchAllTo = none ∧
    getJobResultHandlerSpec.catchAllTo = none ∧
    parseMediaHandlerTaggedSpec.catchAllTo = none ∧
    parseMediaHandlerCaughtSpec.catchAllTo = some .mediaEmpty := by
  decide

/-- C6: the endpoint declarations in `src/src/api.ts` (the module the
server imports) register `MediaNotFound` 404 on GET /media/job/:id and
`JobResultNotFound` 404 plus `MediaEmpty` 422 on
GET /media/job/:id/result — `JobNotFound` is registered on neither —
while the duplicate declaration in src/unnamed/part_011 registers exactly
the statuses of the spec table. -/
theorem http_surface_error_declarations :
    apiTsJob.errors = [(.mediaNotFound, 404)] ∧
    apiTsJobResult.errors = [(.jobResultNotFound, 404), (.mediaEmpty, 422)] ∧
    (WireError.jobNotFound, 404) ∉ apiTsJob.errors ∧
    (WireError.jobNotFound, 404) ∉ apiTsJobResult.errors ∧
    apiAltJob.errors = [(.jobNotFound, 404)] ∧
    apiAltJobResult.errors = [(.jobResultNotFound, 404), (.jobNotFound, 404)] := by
  decide

end Coursition
